import Mathlib

/-!
Verification of the AtlasGTO data-integration and classification core.

This file is a shallow embedding, in Lean 4, of the TypeScript modules
`municipalityMapping` (code crosswalk), `dataLoader` (lookup and alignment),
`geoJsonValidator` (integrity validator), `dataJoiner`
(`joinDataWithGeometries`, `createChoroplethMapping`) and `layerManager`
(`AtlasLayerManager`), together with theorems about them.

Modelling conventions, used throughout:
* JavaScript numbers are modelled as `ℚ` (for data values) or `Int`/`ℕ`
  (for codes and counts).  No claim exercises genuine floating-point
  behaviour; division by zero (JS `NaN`/`Infinity`) is modelled explicitly
  with `Option` where the embedded code can reach it.
* A JS `Map` built by repeated `set` calls is modelled as a lookup function
  built by a left fold (`jsMapOfList`): a later `set` for the same key
  overwrites an earlier one, exactly as in JS.
* A JS `Set` is modelled as a `Finset` when only membership and cardinality
  are observed.
* JS truthiness is modelled where the source relies on it: `undefined`/`0`
  are falsy for numbers (`jsIndexOr`), `undefined`/`""` are falsy for
  strings (`jsOrS`).
-/

/-- A JS `Map` built by `kv.forEach((v,k) => map.set(k,v))`, observed through
`Map.get`: later writes to the same key overwrite earlier ones. -/
def jsMapOfList {α β : Type} [DecidableEq α] (kv : List (α × β)) : α → Option β :=
  kv.foldl (fun m p => fun x => if x = p.1 then some p.2 else m x) (fun _ => none)

/-- Models `String.prototype.toLowerCase`.  ASCII-accurate; every character
appearing in the embedded municipality catalogs is either ASCII or an
already-lowercase accented letter, on which the JS function agrees. -/
def jsToLowerCase (s : String) : String := String.mk (s.data.map Char.toLower)

/-- Models `x || y` for a possibly-absent JS string `x`:
`undefined` and `""` are falsy. -/
def jsOrS (x : Option String) (y : String) : String :=
  match x with
  | none => y
  | some s => if s = "" then y else s

/-- Models `values[i] || fallback` for a JS number array: an out-of-range
index yields `undefined` (falsy) and the number `0` is itself falsy. -/
def jsIndexOr (vs : List ℚ) (i : ℕ) (fallback : ℚ) : ℚ :=
  match vs.get? i with
  | none => fallback
  | some x => if x = 0 then fallback else x

/-- Models `s.padStart(3, "0")` as used on stringified municipality codes. -/
def padStart3 (s : String) : String :=
  if s.length ≥ 3 then s else String.mk (List.replicate (3 - s.length) '0') ++ s

/-- `breaks[i] <= breaks[i+1]` for every adjacent pair. -/
def isNonDecreasing : List ℚ → Bool
  | [] => true
  | [_] => true
  | x :: y :: t => decide (x ≤ y) && isNonDecreasing (y :: t)

/-- Ascending insertion used by `sortAsc`. -/
def insertAsc (x : ℚ) : List ℚ → List ℚ
  | [] => [x]
  | y :: ys => if x ≤ y then x :: y :: ys else y :: insertAsc x ys

/-- Models `values.sort((a, b) => a - b)`: the ascending reordering of the
list (insertion sort; any correct ascending sort of numbers produces the
same list of values). -/
def sortAsc (l : List ℚ) : List ℚ := l.foldr insertAsc []

/-! ## Code Crosswalk (`municipalityMapping`) -/

/-- Municipality information from official sources
(`MunicipalityInfo` in the source). -/
structure MunicipalityInfo where
  geoJsonCode : ℕ
  dataCode : String
  officialName : String
  commonName : Option String := none
deriving DecidableEq

/-- `GUANAJUATO_MUNICIPALITIES`: the official mapping, a JS record keyed by
the compact code 1–46; modelled as the key/value list in ascending key
order (the iteration order of a JS object with integer-like keys). -/
def GUANAJUATO_MUNICIPALITIES : List (ℕ × MunicipalityInfo) :=
  [ (1,  { geoJsonCode := 1,  dataCode := "11001", officialName := "Abasolo" }),
    (2,  { geoJsonCode := 2,  dataCode := "11002", officialName := "Acámbaro" }),
    (3,  { geoJsonCode := 3,  dataCode := "11003", officialName := "San Miguel de Allende" }),
    (4,  { geoJsonCode := 4,  dataCode := "11004", officialName := "Apaseo el Alto" }),
    (5,  { geoJsonCode := 5,  dataCode := "11005", officialName := "Apaseo el Grande" }),
    (6,  { geoJsonCode := 6,  dataCode := "11006", officialName := "Atarjea" }),
    (7,  { geoJsonCode := 7,  dataCode := "11007", officialName := "Celaya" }),
    (8,  { geoJsonCode := 8,  dataCode := "11008", officialName := "Manuel Doblado" }),
    (9,  { geoJsonCode := 9,  dataCode := "11009", officialName := "Comonfort" }),
    (10, { geoJsonCode := 10, dataCode := "11010", officialName := "Coroneo" }),
    (11, { geoJsonCode := 11, dataCode := "11011", officialName := "Cortazar" }),
    (12, { geoJsonCode := 12, dataCode := "11012", officialName := "Cuerámaro" }),
    (13, { geoJsonCode := 13, dataCode := "11013", officialName := "Doctor Mora" }),
    (14, { geoJsonCode := 14, dataCode := "11014",
           officialName := "Dolores Hidalgo Cuna de la Independencia Nacional",
           commonName := some "Dolores Hidalgo" }),
    (15, { geoJsonCode := 15, dataCode := "11015", officialName := "Guanajuato" }),
    (16, { geoJsonCode := 16, dataCode := "11016", officialName := "Huanímaro" }),
    (17, { geoJsonCode := 17, dataCode := "11017", officialName := "Irapuato" }),
    (18, { geoJsonCode := 18, dataCode := "11018", officialName := "Jaral del Progreso" }),
    (19, { geoJsonCode := 19, dataCode := "11019", officialName := "Jerécuaro" }),
    (20, { geoJsonCode := 20, dataCode := "11020", officialName := "León" }),
    (21, { geoJsonCode := 21, dataCode := "11021", officialName := "Moroleón" }),
    (22, { geoJsonCode := 22, dataCode := "11022", officialName := "Ocampo" }),
    (23, { geoJsonCode := 23, dataCode := "11023", officialName := "Pénjamo" }),
    (24, { geoJsonCode := 24, dataCode := "11024", officialName := "Pueblo Nuevo" }),
    (25, { geoJsonCode := 25, dataCode := "11025", officialName := "Purísima del Rincón" }),
    (26, { geoJsonCode := 26, dataCode := "11026", officialName := "Romita" }),
    (27, { geoJsonCode := 27, dataCode := "11027", officialName := "Salamanca" }),
    (28, { geoJsonCode := 28, dataCode := "11028", officialName := "Salvatierra" }),
    (29, { geoJsonCode := 29, dataCode := "11029", officialName := "San Diego de la Unión" }),
    (30, { geoJsonCode := 30, dataCode := "11030", officialName := "San Felipe" }),
    (31, { geoJsonCode := 31, dataCode := "11031", officialName := "San Francisco del Rincón" }),
    (32, { geoJsonCode := 32, dataCode := "11032", officialName := "San José Iturbide" }),
    (33, { geoJsonCode := 33, dataCode := "11033", officialName := "San Luis de la Paz" }),
    (34, { geoJsonCode := 34, dataCode := "11034", officialName := "Santa Catarina" }),
    (35, { geoJsonCode := 35, dataCode := "11035", officialName := "Santa Cruz de Juventino Rosas" }),
    (36, { geoJsonCode := 36, dataCode := "11036", officialName := "Santiago Maravatío" }),
    (37, { geoJsonCode := 37, dataCode := "11037", officialName := "Silao" }),
    (38, { geoJsonCode := 38, dataCode := "11038", officialName := "Tarandacuao" }),
    (39, { geoJsonCode := 39, dataCode := "11039", officialName := "Tarimoro" }),
    (40, { geoJsonCode := 40, dataCode := "11040", officialName := "Tierra Blanca" }),
    (41, { geoJsonCode := 41, dataCode := "11041", officialName := "Uriangato" }),
    (42, { geoJsonCode := 42, dataCode := "11042", officialName := "Valle de Santiago" }),
    (43, { geoJsonCode := 43, dataCode := "11043", officialName := "Victoria" }),
    (44, { geoJsonCode := 44, dataCode := "11044", officialName := "Villagrán" }),
    (45, { geoJsonCode := 45, dataCode := "11045", officialName := "Xichú" }),
    (46, { geoJsonCode := 46, dataCode := "11046", officialName := "Yuriria" }) ]

/-- `GUANAJUATO_MUNICIPALITIES[geoJsonCode]` (record indexing; the keys are
unique, so lookup by key equals the first — and only — matching entry). -/
def getMunicipalityByGeoCode (geoJsonCode : ℕ) : Option MunicipalityInfo :=
  (GUANAJUATO_MUNICIPALITIES.find? (fun p => p.1 = geoJsonCode)).map Prod.snd

/-- `Object.values(GUANAJUATO_MUNICIPALITIES).find(info => info.dataCode === dataCode)`. -/
def getMunicipalityByDataCode (dataCode : String) : Option MunicipalityInfo :=
  (GUANAJUATO_MUNICIPALITIES.map Prod.snd).find? (fun info => info.dataCode = dataCode)

/-- `geoCodeToDataCode`: compact code → five-digit data code. -/
def geoCodeToDataCode (geoJsonCode : ℕ) : Option String :=
  (getMunicipalityByGeoCode geoJsonCode).map MunicipalityInfo.dataCode

/-- `dataCodeToGeoCode`: five-digit data code → compact code. -/
def dataCodeToGeoCode (dataCode : String) : Option ℕ :=
  (getMunicipalityByDataCode dataCode).map MunicipalityInfo.geoJsonCode

/-! ## Data loading (`dataLoader`) -/

/-- `MunicipalDataRecord`: a tabular record carrying the `municipio` code
plus layer-specific fields, abstracted as a `payload` of arbitrary type. -/
structure MunicipalDataRecord (α : Type) where
  municipio : String
  payload : α
deriving DecidableEq

/-- `DataFile`: a tabular dataset with metadata and records. -/
structure DataFile (α : Type) where
  version : String
  source : Option String := none
  updated : Option String := none
  records : List (MunicipalDataRecord α)

/-- `createMunicipalityLookup`: builds the `dataCode → record` JS `Map` by
`records.forEach(record => lookup.set(record.municipio, record))`. -/
def createMunicipalityLookup {α : Type} (dataFile : DataFile α) :
    String → Option (MunicipalDataRecord α) :=
  jsMapOfList (dataFile.records.map (fun r => (r.municipio, r)))

/-- `validateMunicipalityAlignment`'s result.  The source returns the three
code collections as arrays (in set-insertion order); only membership and
cardinality are ever observed, so they are kept as `Finset`s here.
`alignmentRatio = matching.size / max(geoCodes.size, dataCodes.size)`;
when both input sets are empty this is JS `0/0 = NaN`, modelled as `none`. -/
structure MunicipalityAlignment where
  matching : Finset String
  missingInGeo : Finset String
  missingInData : Finset String
  alignmentRatio : Option ℚ

/-- `validateMunicipalityAlignment`: partitions the two code sets and
computes the alignment ratio. -/
def validateMunicipalityAlignment (geoMunicipalityCodes dataMunicipalityCodes : Finset String) :
    MunicipalityAlignment :=
  { matching := dataMunicipalityCodes ∩ geoMunicipalityCodes,
    missingInGeo := dataMunicipalityCodes \ geoMunicipalityCodes,
    missingInData := geoMunicipalityCodes \ dataMunicipalityCodes,
    alignmentRatio :=
      if max geoMunicipalityCodes.card dataMunicipalityCodes.card = 0 then none
      else some (((dataMunicipalityCodes ∩ geoMunicipalityCodes).card : ℚ) /
        (max geoMunicipalityCodes.card dataMunicipalityCodes.card : ℚ)) }

/-- An entry of `validateCodeAlignment`'s `matched` array. -/
structure MatchedCodeEntry where
  geoCode : ℕ
  dataCode : String
  name : String
deriving DecidableEq

/-- An entry of `validateCodeAlignment`'s `missingInData` array. -/
structure MissingInDataEntry where
  geoCode : ℕ
  expectedDataCode : String
  name : String
deriving DecidableEq

/-- An entry of `validateCodeAlignment`'s `missingInGeo` array. -/
structure MissingInGeoEntry where
  dataCode : String
  expectedGeoCode : Option ℕ
  name : Option String
deriving DecidableEq

/-- The `summary` block of `validateCodeAlignment`'s report. -/
structure CodeAlignmentSummary where
  total : ℕ
  matched : ℕ
  geoJsonCount : ℕ
  dataCount : ℕ
deriving DecidableEq

/-- `validateCodeAlignment`'s result.  `alignmentRatio =
matched.length / max(geoJsonCodes.length, dataCodes.length)`, over the
input array lengths; when both input arrays are empty this is JS
`0/0 = NaN`, modelled as `none`. -/
structure CodeAlignmentReport where
  matched : List MatchedCodeEntry
  missingInData : List MissingInDataEntry
  missingInGeo : List MissingInGeoEntry
  alignmentRatio : Option ℚ
  summary : CodeAlignmentSummary

/-- The branch condition of `validateCodeAlignment`'s geometry pass:
`expectedDataCode && dataSet.has(expectedDataCode)` — by JS truthiness an
absent (`undefined`) or empty-string translation is falsy. -/
def geoCodeMatched (dataSet : Finset String) (geoCode : ℕ) : Bool :=
  match geoCodeToDataCode geoCode with
  | Option.some d => decide (d ≠ "") && decide (d ∈ dataSet)
  | Option.none => false

/-- `validateCodeAlignment`: the crosswalk-mediated alignment validator on
a compact-code array and a data-code array.  Each geometry code whose
expected data code is present lands in `matched` (its `dataCode` field is
that translation — written `.getD ""` here, equal to it on the kept
branch); the others land in `missingInData`.  A data code lands in
`missingInGeo` when `!expectedGeoCode || !geoSet.has(expectedGeoCode)` —
JS truthiness makes the compact code `0` falsy too (the catalog only holds
codes 1–46). -/
def validateCodeAlignment (geoJsonCodes : List ℕ) (dataCodes : List String) :
    CodeAlignmentReport :=
  let geoSet : Finset ℕ := geoJsonCodes.toFinset
  let dataSet : Finset String := dataCodes.toFinset
  let matched : List MatchedCodeEntry :=
    (geoJsonCodes.filter (geoCodeMatched dataSet)).map (fun geoCode =>
      { geoCode := geoCode,
        dataCode := (geoCodeToDataCode geoCode).getD "",
        name := jsOrS ((getMunicipalityByGeoCode geoCode).map
          MunicipalityInfo.officialName) ("Unknown") })
  let missingInData : List MissingInDataEntry :=
    (geoJsonCodes.filter (fun geoCode => !(geoCodeMatched dataSet geoCode))).map
      (fun geoCode =>
        { geoCode := geoCode,
          expectedDataCode := jsOrS (geoCodeToDataCode geoCode) ("Unknown"),
          name := jsOrS ((getMunicipalityByGeoCode geoCode).map
            MunicipalityInfo.officialName) ("Unknown") })
  let missingInGeo : List MissingInGeoEntry :=
    dataCodes.filterMap (fun dataCode =>
      match dataCodeToGeoCode dataCode with
      | Option.some g =>
          if g = 0 ∨ g ∉ geoSet then
            some { dataCode := dataCode, expectedGeoCode := some g,
                   name := (getMunicipalityByDataCode dataCode).map
                     MunicipalityInfo.officialName }
          else none
      | Option.none =>
          some { dataCode := dataCode, expectedGeoCode := none,
                 name := (getMunicipalityByDataCode dataCode).map
                   MunicipalityInfo.officialName })
  { matched := matched,
    missingInData := missingInData,
    missingInGeo := missingInGeo,
    alignmentRatio :=
      if max geoJsonCodes.length dataCodes.length = 0 then none
      else some ((matched.length : ℚ) /
        ((max geoJsonCodes.length dataCodes.length : ℕ) : ℚ)),
    summary :=
      { total := max geoJsonCodes.length dataCodes.length,
        matched := matched.length,
        geoJsonCount := geoJsonCodes.length,
        dataCount := dataCodes.length } }

/-! ## Layer State Store (`atlasConfig`, `layerManager`) -/

/-- `AtlasLayerConfig` from `atlasConfig.ts`.  The nested static `metadata`
block (source/lastUpdated/unit strings) is never observed by any store
operation and is omitted. -/
structure AtlasLayerConfig where
  id : String
  name : String
  description : String
  dataSource : String
  visualization : String
  color : String
  isActive : Bool
  group : String
  order : ℕ
deriving DecidableEq

/-- `ATLAS_LAYERS`: the static layer configuration table, in the key order
of the source object. -/
def ATLAS_LAYERS : List (String × AtlasLayerConfig) :=
  [ ("indice_riesgo",
     { id := "indice_riesgo", name := "Índice de Riesgo",
       description := "Índice compuesto de riesgo para mujeres buscadoras por municipio (0-100)",
       dataSource := "/data/indice_riesgo.json", visualization := "choropleth",
       color := "#6580A4", isActive := true, group := "principal", order := 1 }),
    ("desapariciones",
     { id := "desapariciones", name := "Desapariciones",
       description := "Casos de desaparición por municipio con visualización de densidad",
       dataSource := "/data/desapariciones_mun.json", visualization := "hybrid",
       color := "#F45197", isActive := false, group := "factores_riesgo", order := 2 }),
    ("homicidios",
     { id := "homicidios", name := "Homicidios",
       description := "Homicidios dolosos por municipio con mapa de calor",
       dataSource := "/data/homicidio_mun.json", visualization := "hybrid",
       color := "#FF8200", isActive := false, group := "factores_riesgo", order := 3 }),
    ("tomas_clandestinas",
     { id := "tomas_clandestinas", name := "Tomas Clandestinas",
       description := "Densidad de tomas clandestinas de combustible por municipio",
       dataSource := "/data/tomas_clandestinas.json", visualization := "heatmap",
       color := "#FF8200", isActive := false, group := "factores_riesgo", order := 4 }),
    ("rezago_social",
     { id := "rezago_social", name := "Rezago Social",
       description := "Índice de rezago social municipal por quintiles",
       dataSource := "/data/rezago_municipal.json", visualization := "choropleth",
       color := "#32AA00", isActive := false, group := "socioeconomico", order := 5 }),
    ("capacidad_instalada",
     { id := "capacidad_instalada", name := "Capacidad Institucional",
       description := "Infraestructura institucional disponible para búsqueda",
       dataSource := "/data/capacidad_instalada.json", visualization := "markers",
       color := "#00A99D", isActive := false, group := "institucional", order := 6 }) ]

/-- `LayerVisualizationType` from `layerManager.ts`. -/
inductive LayerVisualizationType where
  | choropleth
  | heatmap
  | markers
  | none
deriving DecidableEq

/-- `LayerState` from `layerManager.ts`. -/
structure LayerState where
  id : String
  name : String
  description : String
  isVisible : Bool
  isLoading : Bool
  hasData : Bool
  visualizationType : LayerVisualizationType
  config : AtlasLayerConfig
  dataCount : Option ℕ := none
  lastUpdated : Option String := none
deriving DecidableEq

/-- The `AtlasLayerManager` store.  The JS `Map<string, LayerState>` holds
references to `LayerState` objects; `order` is the Map's insertion order of
layer ids and `heap` gives the current contents of the object referenced by
each id.  Mutating operations update objects in place (they update `heap`),
never replace them, so a reference stays valid across mutations. -/
structure AtlasLayerManager where
  order : List String
  heap : String → Option LayerState

/-- `determineVisualizationType`: the fixed id → visualization table,
defaulting to choropleth. -/
def determineVisualizationType (config : AtlasLayerConfig) : LayerVisualizationType :=
  if config.id = "indice_riesgo" ∨ config.id = "rezago_social" then
    LayerVisualizationType.choropleth
  else if config.id = "desapariciones" ∨ config.id = "homicidios" ∨
      config.id = "tomas_clandestinas" then
    LayerVisualizationType.heatmap
  else if config.id = "capacidad_instalada" then
    LayerVisualizationType.markers
  else
    LayerVisualizationType.choropleth

/-- `initializeLayers` (run by the constructor): one `LayerState` per
configured layer, only `indice_riesgo` visible by default. -/
def initializeLayers : AtlasLayerManager :=
  ATLAS_LAYERS.foldl
    (fun m p =>
      let layerState : LayerState :=
        { id := p.1, name := p.2.name, description := p.2.description,
          isVisible := decide (p.1 = "indice_riesgo"),
          isLoading := false, hasData := false,
          visualizationType := determineVisualizationType p.2, config := p.2 }
      { order := m.order ++ [p.1],
        heap := fun x => if x = p.1 then some layerState else m.heap x })
    { order := [], heap := fun _ => none }

/-- `getLayers` returns `Array.from(this.layers.values())`: a new array on
each call whose elements are the live `LayerState` object references —
modelled as the list of references (ids) in Map insertion order. -/
def getLayers (m : AtlasLayerManager) : List String := m.order

/-- The contents observed by dereferencing, against the store state `m`, a
snapshot array previously returned by `getLayers`. -/
def readSnapshot (m : AtlasLayerManager) (snapshot : List String) :
    List (Option LayerState) :=
  snapshot.map m.heap

/-- The dereferenced contents of the `getLayers()` array at broadcast time
(what a listener observes when `notifyListeners` runs). -/
def snapshotContents (m : AtlasLayerManager) : List LayerState :=
  m.order.filterMap m.heap

/-- `toggleLayer`: flips `layer.isVisible` in place and notifies listeners;
returns the new visibility, or `false` (with a console warning) when the id
is unknown. -/
def toggleLayer (m : AtlasLayerManager) (id : String) : AtlasLayerManager × Bool :=
  match m.heap id with
  | Option.none => (m, false)
  | Option.some layer =>
      let layer2 : LayerState := { layer with isVisible := !layer.isVisible }
      ({ m with heap := fun x => if x = id then some layer2 else m.heap x },
       layer2.isVisible)

/-- `setLayerVisibility`, together with the broadcasts it emits: each
element of the third component is the dereferenced snapshot passed to every
subscribed listener by one `notifyListeners()` call (so with one subscribed
listener, the length of that list is the number of listener invocations). -/
def setLayerVisibility (m : AtlasLayerManager) (id : String) (visible : Bool) :
    AtlasLayerManager × Bool × List (List LayerState) :=
  match m.heap id with
  | Option.none => (m, false, [])
  | Option.some layer =>
      if layer.isVisible ≠ visible then
        let m2 : AtlasLayerManager :=
          { m with heap := fun x =>
              if x = id then some { layer with isVisible := visible } else m.heap x }
        (m2, true, [snapshotContents m2])
      else (m, true, [])

/-! ## GeoJSON structures (`geoUtils`) -/

/-- Polygon coordinate rings.  A MultiPolygon adds one more nesting level;
the embedded code only ever observes whether the `coordinates` field is
present, never its shape. -/
abbrev Coordinates := List (List (List ℚ))

/-- The `geometry` member of a feature; `coordinates = none` models a
missing/null coordinate payload. -/
structure Geometry where
  gtype : String
  coordinates : Option Coordinates
deriving DecidableEq

/-- `MunicipalityProperties`.  `state_code`, `mun_code`, `mun_name` carry
their declared TS types; under JS truthiness `0` and `""` are the falsy
values the validator's required-property guard can observe on them.
`cvegeo` and `nombre` are the optional computed fields. -/
structure MunicipalityProperties where
  state_code : Int
  mun_code : Int
  mun_name : String
  cvegeo : Option String := none
  nombre : Option String := none
deriving DecidableEq

/-- `MunicipalityFeature`. -/
structure MunicipalityFeature where
  geometry : Option Geometry
  properties : MunicipalityProperties
deriving DecidableEq

/-- `MunicipalitiesGeoJSON`: the feature collection. -/
structure MunicipalitiesGeoJSON where
  features : List MunicipalityFeature
deriving DecidableEq

/-! ## Integrity Validator (`geoJsonValidator`) -/

/-- `INEGIMunicipalityData` (the optional `cabecera`/`superficie`/
`poblacion` reference fields are never populated nor observed). -/
structure INEGIMunicipalityData where
  clave : String
  nombre : String
  nombreCompleto : Option String := none
deriving DecidableEq

/-- `INEGI_GUANAJUATO_MUNICIPALITIES`: official INEGI catalog for
Guanajuato (state 11). -/
def INEGI_GUANAJUATO_MUNICIPALITIES : List INEGIMunicipalityData :=
  [ { clave := "11001", nombre := "Abasolo" },
    { clave := "11002", nombre := "Acámbaro" },
    { clave := "11003", nombre := "San Miguel de Allende" },
    { clave := "11004", nombre := "Apaseo el Alto" },
    { clave := "11005", nombre := "Apaseo el Grande" },
    { clave := "11006", nombre := "Atarjea" },
    { clave := "11007", nombre := "Celaya" },
    { clave := "11008", nombre := "Manuel Doblado" },
    { clave := "11009", nombre := "Comonfort" },
    { clave := "11010", nombre := "Coroneo" },
    { clave := "11011", nombre := "Cortazar" },
    { clave := "11012", nombre := "Cuerámaro" },
    { clave := "11013", nombre := "Doctor Mora" },
    { clave := "11014", nombre := "Dolores Hidalgo Cuna de la Independencia Nacional" },
    { clave := "11015", nombre := "Guanajuato" },
    { clave := "11016", nombre := "Huanímaro" },
    { clave := "11017", nombre := "Irapuato" },
    { clave := "11018", nombre := "Jaral del Progreso" },
    { clave := "11019", nombre := "Jerécuaro" },
    { clave := "11020", nombre := "León" },
    { clave := "11021", nombre := "Moroleón" },
    { clave := "11022", nombre := "Ocampo" },
    { clave := "11023", nombre := "Pénjamo" },
    { clave := "11024", nombre := "Pueblo Nuevo" },
    { clave := "11025", nombre := "Purísima del Rincón" },
    { clave := "11026", nombre := "Romita" },
    { clave := "11027", nombre := "Salamanca" },
    { clave := "11028", nombre := "Salvatierra" },
    { clave := "11029", nombre := "San Diego de la Unión" },
    { clave := "11030", nombre := "San Felipe" },
    { clave := "11031", nombre := "San Francisco del Rincón" },
    { clave := "11032", nombre := "San José Iturbide" },
    { clave := "11033", nombre := "San Luis de la Paz" },
    { clave := "11034", nombre := "Santa Catarina" },
    { clave := "11035", nombre := "Santa Cruz de Juventino Rosas" },
    { clave := "11036", nombre := "Santiago Maravatío" },
    { clave := "11037", nombre := "Silao de la Victoria",
      nombreCompleto := some "Silao de la Victoria" },
    { clave := "11038", nombre := "Tarandacuao" },
    { clave := "11039", nombre := "Tarimoro" },
    { clave := "11040", nombre := "Tierra Blanca" },
    { clave := "11041", nombre := "Uriangato" },
    { clave := "11042", nombre := "Valle de Santiago" },
    { clave := "11043", nombre := "Victoria" },
    { clave := "11044", nombre := "Villagrán" },
    { clave := "11045", nombre := "Xichú" },
    { clave := "11046", nombre := "Yuriria" } ]

/-- `ValidationIssueType`. -/
inductive ValidationIssueType where
  | missing_municipality
  | extra_municipality
  | wrong_code
  | wrong_name
  | invalid_geometry
  | missing_properties
  | invalid_state_code
deriving DecidableEq, BEq

/-- Issue severity (`'error' | 'warning' | 'info'` in the source). -/
inductive Severity where
  | error
  | warning
  | info
deriving DecidableEq, BEq

/-- `ValidationIssue` (the source field `type` is called `issueType` here,
`type` being reserved in Lean). -/
structure ValidationIssue where
  issueType : ValidationIssueType
  severity : Severity
  municipality : Option String := none
  expected : Option String := none
  actual : Option String := none
  description : String
  suggestion : Option String := none
deriving DecidableEq

/-- The per-severity tally of a `ValidationReport`. -/
structure ValidationSummary where
  errors : ℕ
  warnings : ℕ
  info : ℕ
deriving DecidableEq

/-- `ValidationReport`. -/
structure ValidationReport where
  isValid : Bool
  totalMunicipalities : ℕ
  expectedMunicipalities : ℕ
  issues : List ValidationIssue
  summary : ValidationSummary
deriving DecidableEq

/-- `inegiByCode`: the JS `Map` from INEGI code to catalog entry. -/
def inegiByCode : String → Option INEGIMunicipalityData :=
  jsMapOfList (INEGI_GUANAJUATO_MUNICIPALITIES.map (fun mun => (mun.clave, mun)))

/-- `inegiByName`: the JS `Map` from lower-cased official name to entry. -/
def inegiByName : String → Option INEGIMunicipalityData :=
  jsMapOfList (INEGI_GUANAJUATO_MUNICIPALITIES.map
    (fun mun => (jsToLowerCase mun.nombre, mun)))

/-- One iteration of the validator's per-feature pass (step 4 of
`validateGeoJSONIntegrity`).  Returns the issues emitted for the feature
and, unless the required-property guard fired (JS `return` inside
`forEach`), the reconstructed code and lower-cased name the feature
contributes to the found-code/found-name sets. -/
def validateFeature (index : ℕ) (feature : MunicipalityFeature) :
    List ValidationIssue × Option (String × String) :=
  let props := feature.properties
  if props.state_code = 0 ∨ props.mun_code = 0 ∨ props.mun_name = "" then
    ([{ issueType := ValidationIssueType.missing_properties, severity := Severity.error,
        municipality := some ("Feature " ++ toString index),
        description := "Missing required properties (state_code, mun_code, mun_name)",
        suggestion := some "Add missing properties to GeoJSON feature" }], none)
  else
    let stateIssues : List ValidationIssue :=
      if props.state_code ≠ 11 then
        [{ issueType := ValidationIssueType.invalid_state_code, severity := Severity.error,
           municipality := some props.mun_name,
           expected := some "11", actual := some (toString props.state_code),
           description := "Invalid state code for Guanajuato",
           suggestion := some "State code should be 11 for Guanajuato" }]
      else []
    let expectedCode := "11" ++ padStart3 (toString props.mun_code)
    let byCodeMatch := inegiByCode expectedCode
    let byNameMatch := inegiByName (jsToLowerCase props.mun_name)
    let matchIssues : List ValidationIssue :=
      match byCodeMatch, byNameMatch with
      | Option.none, Option.none =>
          [{ issueType := ValidationIssueType.missing_municipality, severity := Severity.error,
             municipality := some props.mun_name,
             expected := some "Valid INEGI municipality",
             actual := some (props.mun_name ++ " (" ++ expectedCode ++ ")"),
             description := "Municipality not found in official INEGI catalog",
             suggestion := some "Verify municipality name and code against INEGI data" }]
      | Option.some _, Option.some _ => []
      | Option.some cm, Option.none =>
          [{ issueType := ValidationIssueType.wrong_name, severity := Severity.warning,
             municipality := some props.mun_name,
             expected := some cm.nombre, actual := some props.mun_name,
             description := "Municipality name doesn\x27t match INEGI official name",
             suggestion := some ("Consider using official name: \"" ++ cm.nombre ++ "\"") }]
      | Option.none, Option.some nm =>
          let correctMunCode := (nm.clave.drop 2).toNat?.getD 0
          [{ issueType := ValidationIssueType.wrong_code, severity := Severity.error,
             municipality := some props.mun_name,
             expected := some ("mun_code: " ++ toString correctMunCode),
             actual := some ("mun_code: " ++ toString props.mun_code),
             description := "Municipality code doesn\x27t match INEGI official code",
             suggestion := some ("Change mun_code from " ++ toString props.mun_code ++
               " to " ++ toString correctMunCode) }]
    let geomIssues : List ValidationIssue :=
      match feature.geometry with
      | Option.none =>
          [{ issueType := ValidationIssueType.invalid_geometry, severity := Severity.error,
             municipality := some props.mun_name,
             description := "Invalid or missing geometry",
             suggestion := some "Ensure feature has valid geometry with coordinates" }]
      | Option.some g =>
          if g.coordinates = none then
            [{ issueType := ValidationIssueType.invalid_geometry, severity := Severity.error,
               municipality := some props.mun_name,
               description := "Invalid or missing geometry",
               suggestion := some "Ensure feature has valid geometry with coordinates" }]
          else []
    (stateIssues ++ matchIssues ++ geomIssues,
     some (expectedCode, jsToLowerCase props.mun_name))

/-- Step 5 of `validateGeoJSONIntegrity`: warnings for official units whose
code and name were both never observed in the input. -/
def missingMunicipalityIssues (foundCodes foundNames : List String) :
    List ValidationIssue :=
  (INEGI_GUANAJUATO_MUNICIPALITIES.filter (fun mun =>
      !(foundCodes.contains mun.clave) &&
        !(foundNames.contains (jsToLowerCase mun.nombre)))).map
    (fun mun =>
      { issueType := ValidationIssueType.missing_municipality, severity := Severity.warning,
        municipality := some mun.nombre, expected := some mun.clave,
        description := "Official municipality missing from GeoJSON",
        suggestion := some ("Add " ++ mun.nombre ++ " (" ++ mun.clave ++ ") to GeoJSON") })

/-- `validateGeoJSONIntegrity`.  The source's initial
`!geoJsonData.features || !Array.isArray(...)` guard is unreachable for a
well-typed collection (a JS array, even empty, is truthy) and is not
modelled. -/
def validateGeoJSONIntegrity (geoJsonData : MunicipalitiesGeoJSON) : ValidationReport :=
  let perFeature := geoJsonData.features.enum.map (fun p => validateFeature p.1 p.2)
  let found := perFeature.filterMap Prod.snd
  let issues := (perFeature.map Prod.fst).flatten ++
    missingMunicipalityIssues (found.map Prod.fst) (found.map Prod.snd)
  let summary : ValidationSummary :=
    { errors := (issues.filter (fun i => i.severity == Severity.error)).length,
      warnings := (issues.filter (fun i => i.severity == Severity.warning)).length,
      info := (issues.filter (fun i => i.severity == Severity.info)).length }
  { isValid := summary.errors == 0,
    totalMunicipalities := geoJsonData.features.length,
    expectedMunicipalities := INEGI_GUANAJUATO_MUNICIPALITIES.length,
    issues := issues,
    summary := summary }

/-- A structurally present polygon payload for test features. -/
def testGeometry : Geometry :=
  { gtype := "Polygon", coordinates := some [[[-101, 21], [-102, 21], [-101, 22]]] }

/-- Scenario D input: a single feature named "Leon" (canonical "León") with
the correct code 20 and a structurally present geometry. -/
def leonScenario : MunicipalitiesGeoJSON :=
  { features :=
      [ { geometry := some testGeometry,
          properties := { state_code := 11, mun_code := 20, mun_name := "Leon" } } ] }

/-! ## Join Engine (`dataJoiner`) -/

/-- The `properties` of an `EnhancedMunicipalityFeature`: the raw GeoJSON
properties plus the joined `data`, `hasData` and `dataSource` fields. -/
structure EnhancedProperties (α : Type) where
  cvegeo : String
  nombre : String
  state_code : Int
  mun_code : Int
  mun_name : String
  data : Option (MunicipalDataRecord α) := none
  hasData : Bool
  dataSource : String
deriving DecidableEq

/-- `EnhancedMunicipalityFeature`. -/
structure EnhancedFeature (α : Type) where
  geometry : Option Geometry
  properties : EnhancedProperties α
deriving DecidableEq

/-- The `metadata` block of an `EnhancedMunicipalitiesGeoJSON`.  `joinedAt`
is a wall-clock ISO timestamp in the source; it is never observed by any
claim and is modelled as an uninterpreted string. -/
structure JoinMetadata where
  totalFeatures : ℕ
  featuresWithData : ℕ
  dataAlignment : Option ℚ
  missingDataCodes : Finset String
  dataSource : String
  joinedAt : String

/-- `EnhancedMunicipalitiesGeoJSON`. -/
structure EnhancedGeoJSON (α : Type) where
  features : List (EnhancedFeature α)
  metadata : JoinMetadata

/-- `joinDataWithGeometries`, modelled at the default configuration
`geoCodeField = "cvegeo"`, `dataCodeField = "municipio"` — the only
configuration the repository uses (the source reads these two property
names dynamically).  Features lacking `cvegeo` contribute JS `undefined` to
the geo code set in the source; such entries are dropped here (no claim
observes that corner). -/
def joinDataWithGeometries {α : Type} (geoJson : MunicipalitiesGeoJSON)
    (dataFile : DataFile α) (dataSourceName : String := "Unknown") :
    EnhancedGeoJSON α :=
  let dataLookup := createMunicipalityLookup dataFile
  let geoCodes : Finset String :=
    (geoJson.features.filterMap (fun f => f.properties.cvegeo)).toFinset
  let dataCodes : Finset String :=
    (dataFile.records.map (fun r => r.municipio)).toFinset
  let alignment := validateMunicipalityAlignment geoCodes dataCodes
  let enhancedFeatures : List (EnhancedFeature α) :=
    geoJson.features.map (fun feature =>
      let municipalityCode : Option String := feature.properties.cvegeo
      let data : Option (MunicipalDataRecord α) := municipalityCode.bind dataLookup
      { geometry := feature.geometry,
        properties :=
          { cvegeo := jsOrS feature.properties.cvegeo (jsOrS municipalityCode ("unknown")),
            nombre := jsOrS feature.properties.nombre
              (jsOrS (some feature.properties.mun_name) ("Unknown")),
            state_code := feature.properties.state_code,
            mun_code := feature.properties.mun_code,
            mun_name := feature.properties.mun_name,
            data := data, hasData := data.isSome, dataSource := dataSourceName } })
  { features := enhancedFeatures,
    metadata :=
      { totalFeatures := enhancedFeatures.length,
        featuresWithData := (enhancedFeatures.filter (fun f => f.properties.hasData)).length,
        dataAlignment := alignment.alignmentRatio,
        missingDataCodes := alignment.missingInData,
        dataSource := dataSourceName,
        joinedAt := "" } }

/-! ## Classification Engine (`createChoroplethMapping`) -/

/-- The classification method (`'quintiles' | 'equal-interval' |
'natural-breaks'`); the source computes quintile breaks for `'quintiles'`
and equal-interval breaks for everything else. -/
inductive ClassificationMethod where
  | quintiles
  | equalInterval
  | naturalBreaks
deriving DecidableEq

/-- The options of `createChoroplethMapping`, with the source defaults. -/
structure ChoroplethOptions where
  method : ClassificationMethod := ClassificationMethod.quintiles
  noDataColor : String := "#cccccc"
  missingDataValue : ℚ := 0
deriving DecidableEq

/-- The `values` array: numeric values extracted, in feature order, from
the features having `hasData` and a present `data` record. -/
def extractedChoroplethValues {α : Type} (enhancedGeoJson : EnhancedGeoJSON α)
    (valueExtractor : MunicipalDataRecord α → ℚ) : List ℚ :=
  enhancedGeoJson.features.filterMap (fun f =>
    match f.properties.hasData, f.properties.data with
    | true, some d => some (valueExtractor d)
    | _, _ => none)

/-- The `valueMap`: every feature writes its code with either its extracted
value or `missingDataValue` (a later feature with the same code overwrites
an earlier one, as for every JS `Map`). -/
def choroplethValueMap {α : Type} (enhancedGeoJson : EnhancedGeoJSON α)
    (valueExtractor : MunicipalDataRecord α → ℚ) (missingDataValue : ℚ) :
    String → Option ℚ :=
  jsMapOfList (enhancedGeoJson.features.map (fun f =>
    (f.properties.cvegeo,
      match f.properties.hasData, f.properties.data with
      | true, some d => valueExtractor d
      | _, _ => missingDataValue)))

/-- `Math.min(...values)` for a non-empty list (the source only calls it on
non-empty `values`). -/
def listMin : List ℚ → ℚ
  | [] => 0
  | x :: xs => xs.foldl min x

/-- `Math.max(...values)` for a non-empty list. -/
def listMax : List ℚ → ℚ
  | [] => 0
  | x :: xs => xs.foldl max x

/-- The quintile break computation on the sorted values:
`[v[0], v[q] || v[0], v[2q] || v[0], v[3q] || v[0], v[4q] || v[0], v[n-1]]`
with `q = ⌊n/5⌋` and JS `||` (so the value `0` itself triggers the
fallback). -/
def computeQuintileBreaks (sorted : List ℚ) : List ℚ :=
  let quintileSize := sorted.length / 5
  let v0 := sorted.getD 0 0
  [v0,
   jsIndexOr sorted quintileSize v0,
   jsIndexOr sorted (quintileSize * 2) v0,
   jsIndexOr sorted (quintileSize * 3) v0,
   jsIndexOr sorted (quintileSize * 4) v0,
   sorted.getD (sorted.length - 1) 0]

/-- The equal-interval break computation:
`min + i·(max−min)/(colors−1)` for `i = 0 .. colors−1`.  (For a one-color
scale JS divides by zero; `ℚ` renders that as `0` — unreachable through the
claims.) -/
def computeEqualIntervalBreaks (values : List ℚ) (numColors : ℕ) : List ℚ :=
  let mn := listMin values
  let mx := listMax values
  let interval := (mx - mn) / ((numColors : ℚ) - 1)
  (List.range numColors).map (fun i => mn + interval * (i : ℚ))

/-- The break sequence computed by `createChoroplethMapping` (source lines
264–283): quintiles sort the values first. -/
def choroplethBreaks (values : List ℚ) (numColors : ℕ)
    (method : ClassificationMethod) : List ℚ :=
  if method = ClassificationMethod.quintiles then
    computeQuintileBreaks (sortAsc values)
  else
    computeEqualIntervalBreaks values numColors

/-- The threshold scan of the returned lookup: walk `breaks` from highest
index to lowest and return the color of the first threshold the value meets
or exceeds, clamping the index into the color scale; `colorScale[0]` if no
threshold is met.  (`""` stands for the JS `undefined` an empty color scale
would produce — unreachable through the claims.) -/
def chooseColor (breaks : List ℚ) (colorScale : List String) (value : ℚ) : String :=
  match (List.range breaks.length).reverse.find?
      (fun i => decide (breaks.getD i 0 ≤ value)) with
  | some i => colorScale.getD (min i (colorScale.length - 1)) ""
  | none => colorScale.getD 0 ""

/-- `createChoroplethMapping`: returns the municipality-code → color
lookup. -/
def createChoroplethMapping {α : Type} (enhancedGeoJson : EnhancedGeoJSON α)
    (valueExtractor : MunicipalDataRecord α → ℚ) (colorScale : List String)
    (options : ChoroplethOptions := {}) : String → String :=
  let values := extractedChoroplethValues enhancedGeoJson valueExtractor
  let valueMap := choroplethValueMap enhancedGeoJson valueExtractor options.missingDataValue
  if values.isEmpty then fun _ => options.noDataColor
  else
    let breaks := choroplethBreaks values colorScale.length options.method
    fun municipalityCode =>
      match valueMap municipalityCode with
      | Option.none => options.noDataColor
      | Option.some value =>
          if value = options.missingDataValue then options.noDataColor
          else chooseColor breaks colorScale value

/-! ## Concrete inputs for the classification scenarios -/

/-- The five risk-index colors, low → high (`RISK_INDEX_COLORS`). -/
def colors5 : List String := ["#99ccff", "#3399ff", "#0066cc", "#004d99", "#003366"]

/-- An enriched feature carrying a plain numeric payload (or no data). -/
def mkEnhancedFeature (code : String) (value : Option ℚ) : EnhancedFeature ℚ :=
  { geometry := none,
    properties :=
      { cvegeo := code, nombre := code, state_code := 11, mun_code := 0,
        mun_name := code,
        data := value.map (fun v => { municipio := code, payload := v }),
        hasData := value.isSome, dataSource := "test" } }

/-- Placeholder join metadata for directly constructed collections. -/
def testMetadata : JoinMetadata :=
  { totalFeatures := 0, featuresWithData := 0, dataAlignment := none,
    missingDataCodes := ∅, dataSource := "test", joinedAt := "" }

/-- Extracts the numeric payload of a test record. -/
def payloadValue : MunicipalDataRecord ℚ → ℚ := fun r => r.payload

/-- Scenario C input: five enriched features with values 10,20,30,40,50. -/
def scenarioCGeo : EnhancedGeoJSON ℚ :=
  { features :=
      [ mkEnhancedFeature ("11001") (some 10),
        mkEnhancedFeature ("11002") (some 20),
        mkEnhancedFeature ("11003") (some 30),
        mkEnhancedFeature ("11004") (some 40),
        mkEnhancedFeature ("11005") (some 50) ],
    metadata := testMetadata }

/-- Input exercising the `||` fallback on the value `0` with negative
values present: extracted values `[0,-1,0,-2,0]`, sorted `[-2,-1,0,0,0]`. -/
def zeroFallbackGeo : EnhancedGeoJSON ℚ :=
  { features :=
      [ mkEnhancedFeature ("11001") (some 0),
        mkEnhancedFeature ("11002") (some (-1)),
        mkEnhancedFeature ("11003") (some 0),
        mkEnhancedFeature ("11004") (some (-2)),
        mkEnhancedFeature ("11005") (some 0) ],
    metadata := testMetadata }

/-- Two features sharing the code "11001": the first carries the sentinel
value `0`, the second the real value `5`. -/
def duplicateCodeGeo : EnhancedGeoJSON ℚ :=
  { features :=
      [ mkEnhancedFeature ("11001") (some 0),
        mkEnhancedFeature ("11001") (some 5) ],
    metadata := testMetadata }

/-- A single feature with the sentinel value `0` as its real data value. -/
def soloSentinelGeo : EnhancedGeoJSON ℚ :=
  { features := [ mkEnhancedFeature ("11001") (some 0) ],
    metadata := testMetadata }

-- ===================================================================
-- Theorems
-- ===================================================================

/-- Key lemma for `jsMapOfList`: folding `set` calls over a key/value list
and then reading key `k` yields the value of the last pair whose key is `k`
(or falls through to the initial map). -/
theorem jsMapOfList_aux {α β : Type} [DecidableEq α] (kv : List (α × β)) (k : α)
    (m : α → Option β) :
    (kv.foldl (fun m p => fun x => if x = p.1 then some p.2 else m x) m) k
      = match (kv.filter (fun p => p.1 = k)).getLast? with
        | some p => some p.2
        | none => m k := by
  induction kv generalizing m with
  | nil => simp
  | cons hd tl ih =>
    simp only [List.foldl_cons, List.filter_cons]
    rw [ih]
    by_cases hk : hd.1 = k
    · simp only [hk, decide_eq_true_eq, if_pos rfl, decide_True]
      cases hfl : (tl.filter (fun p => decide (p.1 = k))).getLast? with
      | some p => simp [List.getLast?_cons, hfl]
      | none =>
        have hnil : tl.filter (fun p => decide (p.1 = k)) = [] :=
          List.getLast?_eq_none_iff.mp hfl
        simp [hnil, hfl, if_pos hk.symm]
    · have hdec : (decide (hd.1 = k)) = false := by simp [hk]
      rw [hdec]
      simp only [Bool.false_eq_true, if_false]
      cases hfl : (tl.filter (fun p => decide (p.1 = k))).getLast? with
      | some p => simp [hfl]
      | none => simp [hfl, if_neg (fun h : k = hd.1 => hk h.symm)]

/-- Reading a `jsMapOfList` map equals the last-written value for the key. -/
theorem jsMapOfList_get {α β : Type} [DecidableEq α] (kv : List (α × β)) (k : α) :
    jsMapOfList kv k = ((kv.filter (fun p => p.1 = k)).getLast?).map Prod.snd := by
  rw [jsMapOfList, jsMapOfList_aux]
  cases (kv.filter (fun p => p.1 = k)).getLast? <;> simp

/-- C7: the `dataCode → DataRecord` lookup built for the join resolves every
code to the later record in iteration order ("last write wins"): reading the
lookup at any code yields the last record of the dataset carrying that code,
for every dataset — in particular for every duplicated code. -/
theorem c7_lookup_last_write_wins {α : Type} (dataFile : DataFile α) (code : String) :
    createMunicipalityLookup dataFile code
      = (dataFile.records.filter (fun r => r.municipio = code)).getLast? := by
  rw [createMunicipalityLookup, jsMapOfList_get, List.filter_map]
  rw [← List.getLast?_map, List.map_map]
  have h1 : (Prod.snd ∘ fun r : MunicipalDataRecord α => (r.municipio, r)) = id := rfl
  have h2 : ((fun p : String × MunicipalDataRecord α => decide (p.1 = code)) ∘
      fun r : MunicipalDataRecord α => (r.municipio, r))
      = fun r : MunicipalDataRecord α => decide (r.municipio = code) := rfl
  rw [h1, h2, List.map_id]

/-- C9: crosswalk round-trip — for every compact code `c` in 1..46, mapping
`c` to its data code, that data code back to a compact code, and that
compact code to a data code again yields the original data code. -/
theorem c9_crosswalk_roundtrip :
    ∀ c ∈ Finset.Icc (1:ℕ) 46,
      ((geoCodeToDataCode c).bind (fun d =>
        (dataCodeToGeoCode d).bind geoCodeToDataCode)) = geoCodeToDataCode c := by
  decide

/-- Witness for C9 at the concrete compact code 7 (Celaya). -/
theorem c9_crosswalk_roundtrip_witness :
    7 ∈ Finset.Icc (1:ℕ) 46 ∧
      ((geoCodeToDataCode 7).bind (fun d =>
        (dataCodeToGeoCode d).bind geoCodeToDataCode)) = geoCodeToDataCode 7 :=
  ⟨by decide, c9_crosswalk_roundtrip 7 (by decide)⟩

/-- The data codes in the crosswalk catalog are pairwise distinct: two
entries carrying the same data code have the same compact-code key. -/
theorem guanajuato_dataCodes_injective :
    ∀ p1 ∈ GUANAJUATO_MUNICIPALITIES, ∀ p2 ∈ GUANAJUATO_MUNICIPALITIES,
      p1.2.dataCode = p2.2.dataCode → p1.1 = p2.1 := by
  decide

/-- No data code in the crosswalk catalog is the empty string. -/
theorem guanajuato_dataCodes_nonempty :
    ∀ p ∈ GUANAJUATO_MUNICIPALITIES, p.2.dataCode ≠ "" := by
  decide

/-- A successful crosswalk translation comes from a catalog entry keyed by
the compact code. -/
theorem geoCodeToDataCode_mem {g : ℕ} {d : String}
    (h : geoCodeToDataCode g = some d) :
    ∃ p ∈ GUANAJUATO_MUNICIPALITIES, p.1 = g ∧ p.2.dataCode = d := by
  unfold geoCodeToDataCode getMunicipalityByGeoCode at h
  cases hf : GUANAJUATO_MUNICIPALITIES.find? (fun p => p.1 = g) with
  | none => rw [hf] at h; simp at h
  | some pr =>
      rw [hf] at h
      simp only [Option.map_some'] at h
      refine ⟨pr, List.mem_of_find?_eq_some hf, ?_, by injection h⟩
      have hp := List.find?_some hf
      simpa using hp

/-- Crosswalk translations are never the empty string. -/
theorem geoCodeToDataCode_ne_empty {g : ℕ} {d : String}
    (h : geoCodeToDataCode g = some d) : d ≠ "" := by
  obtain ⟨p, hp, _, hpd⟩ := geoCodeToDataCode_mem h
  rw [← hpd]
  exact guanajuato_dataCodes_nonempty p hp

/-- The crosswalk translation is injective: two compact codes translating
to the same data code are equal. -/
theorem geoCodeToDataCode_inj {g1 g2 : ℕ} {d : String}
    (h1 : geoCodeToDataCode g1 = some d) (h2 : geoCodeToDataCode g2 = some d) :
    g1 = g2 := by
  obtain ⟨p1, hp1, hk1, hd1⟩ := geoCodeToDataCode_mem h1
  obtain ⟨p2, hp2, hk2, hd2⟩ := geoCodeToDataCode_mem h2
  rw [← hk1, ← hk2]
  exact guanajuato_dataCodes_injective p1 hp1 p2 hp2 (by rw [hd1, hd2])

/-- Unfolding of `validateCodeAlignment`'s match condition. -/
theorem geoCodeMatched_iff {dataSet : Finset String} {g : ℕ} :
    geoCodeMatched dataSet g = true
      ↔ ∃ d, geoCodeToDataCode g = some d ∧ d ≠ "" ∧ d ∈ dataSet := by
  unfold geoCodeMatched
  cases h : geoCodeToDataCode g <;> simp [h]

/-- When every geometry code matches, translating the geometry code set
lands inside the data code set without collisions: the image has exactly
one data code per geometry code. -/
theorem matchedImage_props (geoJsonCodes : List ℕ) (dataCodes : List String)
    (hg : geoJsonCodes.Nodup)
    (hall : ∀ g ∈ geoJsonCodes, geoCodeMatched dataCodes.toFinset g = true) :
    geoJsonCodes.toFinset.image (fun g => (geoCodeToDataCode g).getD "")
        ⊆ dataCodes.toFinset
      ∧ (geoJsonCodes.toFinset.image (fun g => (geoCodeToDataCode g).getD "")).card
          = geoJsonCodes.length := by
  constructor
  · intro d hd
    obtain ⟨g, hgmem, hfg⟩ := Finset.mem_image.mp hd
    obtain ⟨d2, hgd2, _, hdS⟩ :=
      geoCodeMatched_iff.mp (hall g (List.mem_toFinset.mp hgmem))
    have hfg2 : (geoCodeToDataCode g).getD "" = d := hfg
    rw [hgd2] at hfg2
    simp only [Option.getD_some] at hfg2
    rwa [← hfg2]
  · have hinj : Set.InjOn (fun g => (geoCodeToDataCode g).getD "")
        ↑geoJsonCodes.toFinset := by
      intro g1 hg1 g2 hg2 hf
      obtain ⟨d1, h1, _, _⟩ := geoCodeMatched_iff.mp
        (hall g1 (List.mem_toFinset.mp (Finset.mem_coe.mp hg1)))
      obtain ⟨d2, h2, _, _⟩ := geoCodeMatched_iff.mp
        (hall g2 (List.mem_toFinset.mp (Finset.mem_coe.mp hg2)))
      have hf2 : (geoCodeToDataCode g1).getD "" = (geoCodeToDataCode g2).getD "" := hf
      rw [h1, h2] at hf2
      simp only [Option.getD_some] at hf2
      exact geoCodeToDataCode_inj h1 (by rw [hf2]; exact h2)
    rw [Finset.card_image_of_injOn hinj, List.toFinset_card_of_nodup hg]

/-- C4 counterexample: at a pair of empty code collections — which are
identical — both alignment validators compute JS `0/0 = NaN` (modelled
`none`) as the `alignmentRatio`: not a number in `[0,1]` and in particular
not `1`. -/
theorem c4_alignment_ratio_counterexample :
    ((validateMunicipalityAlignment ∅ ∅).alignmentRatio = none
      ∧ (validateMunicipalityAlignment ∅ ∅).alignmentRatio ≠ some 1)
    ∧ ((validateCodeAlignment [] []).alignmentRatio = none
      ∧ (validateCodeAlignment [] []).alignmentRatio ≠ some 1) := by
  refine ⟨⟨by simp [validateMunicipalityAlignment], by simp [validateMunicipalityAlignment]⟩,
    ⟨by simp [validateCodeAlignment], by simp [validateCodeAlignment]⟩⟩

/-- C4 (amended): for both alignment validators, whenever the inputs are
not both empty the computed ratio is a rational in `[0,1]` (when both are
empty the source computes `0/0 = NaN`).  For `validateMunicipalityAlignment`,
`alignmentRatio = |data ∩ geo| / max(|geo|, |data|)` equals `1` exactly
when the two code sets are identical.  For `validateCodeAlignment`, whose
inputs are duplicate-free code arrays of the two coding schemes,
`alignmentRatio = |matched| / max(|geo|, |data|)` equals `1` exactly when
the two code sets are identical up to the crosswalk: every compact code
translates to a data code present in the data codes, and every data code
is the translation of some compact code present in the geometry codes. -/
theorem c4_alignment_ratio_amended :
    (∀ geoCodes dataCodes : Finset String,
      0 < max geoCodes.card dataCodes.card →
      (validateMunicipalityAlignment geoCodes dataCodes).alignmentRatio
          = some (((dataCodes ∩ geoCodes).card : ℚ) /
            ((max geoCodes.card dataCodes.card : ℕ) : ℚ))
        ∧ 0 ≤ ((dataCodes ∩ geoCodes).card : ℚ) /
            ((max geoCodes.card dataCodes.card : ℕ) : ℚ)
        ∧ ((dataCodes ∩ geoCodes).card : ℚ) /
            ((max geoCodes.card dataCodes.card : ℕ) : ℚ) ≤ 1
        ∧ (((dataCodes ∩ geoCodes).card : ℚ) /
              ((max geoCodes.card dataCodes.card : ℕ) : ℚ) = 1
            ↔ geoCodes = dataCodes))
    ∧ (∀ (geoJsonCodes : List ℕ) (dataCodes : List String),
      geoJsonCodes.Nodup → dataCodes.Nodup →
      0 < max geoJsonCodes.length dataCodes.length →
      (validateCodeAlignment geoJsonCodes dataCodes).alignmentRatio
          = some (((geoJsonCodes.filter (geoCodeMatched dataCodes.toFinset)).length : ℚ) /
            ((max geoJsonCodes.length dataCodes.length : ℕ) : ℚ))
        ∧ 0 ≤ ((geoJsonCodes.filter (geoCodeMatched dataCodes.toFinset)).length : ℚ) /
            ((max geoJsonCodes.length dataCodes.length : ℕ) : ℚ)
        ∧ ((geoJsonCodes.filter (geoCodeMatched dataCodes.toFinset)).length : ℚ) /
            ((max geoJsonCodes.length dataCodes.length : ℕ) : ℚ) ≤ 1
        ∧ (((geoJsonCodes.filter (geoCodeMatched dataCodes.toFinset)).length : ℚ) /
              ((max geoJsonCodes.length dataCodes.length : ℕ) : ℚ) = 1
            ↔ ((∀ g ∈ geoJsonCodes, ∃ d ∈ dataCodes, geoCodeToDataCode g = some d)
                ∧ (∀ d ∈ dataCodes, ∃ g ∈ geoJsonCodes, geoCodeToDataCode g = some d)))) := by
  constructor
  · intro geoCodes dataCodes h
    have hne : max geoCodes.card dataCodes.card ≠ 0 := h.ne'
    have hmQ : ((max geoCodes.card dataCodes.card : ℕ) : ℚ) ≠ 0 := by
      exact_mod_cast hne
    refine ⟨by simp [validateMunicipalityAlignment, hne], ?_, ?_, ?_⟩
    · exact div_nonneg (Nat.cast_nonneg _) (Nat.cast_nonneg _)
    · rw [div_le_one (by exact_mod_cast h)]
      exact_mod_cast le_trans (Finset.card_le_card Finset.inter_subset_left) (le_max_right _ _)
    · rw [div_eq_one_iff_eq hmQ, Nat.cast_inj]
      constructor
      · intro hEq
        have hgeo : dataCodes ∩ geoCodes = geoCodes :=
          Finset.eq_of_subset_of_card_le Finset.inter_subset_right
            (by rw [hEq]; exact le_max_left _ _)
        have hdata : dataCodes ∩ geoCodes = dataCodes :=
          Finset.eq_of_subset_of_card_le Finset.inter_subset_left
            (by rw [hEq]; exact le_max_right _ _)
        rw [← hgeo]; exact hdata
      · intro hEq
        subst hEq
        simp [Finset.inter_self]
  · intro geoJsonCodes dataCodes hgnd hdnd hmax
    have hne : max geoJsonCodes.length dataCodes.length ≠ 0 := hmax.ne'
    have hQ : ((max geoJsonCodes.length dataCodes.length : ℕ) : ℚ) ≠ 0 := by
      exact_mod_cast hne
    refine ⟨by simp [validateCodeAlignment, hne], ?_, ?_, ?_⟩
    · exact div_nonneg (Nat.cast_nonneg _) (Nat.cast_nonneg _)
    · rw [div_le_one (by exact_mod_cast hmax)]
      exact_mod_cast le_trans (List.length_filter_le _ _) (le_max_left _ _)
    · rw [div_eq_one_iff_eq hQ, Nat.cast_inj]
      constructor
      · intro hEq
        have hle : (geoJsonCodes.filter (geoCodeMatched dataCodes.toFinset)).length
            ≤ geoJsonCodes.length := List.length_filter_le _ _
        have hgeolen : (geoJsonCodes.filter (geoCodeMatched dataCodes.toFinset)).length
            = geoJsonCodes.length :=
          le_antisymm hle (by rw [hEq]; exact le_max_left _ _)
        have hfil : geoJsonCodes.filter (geoCodeMatched dataCodes.toFinset)
            = geoJsonCodes := (List.filter_sublist _).eq_of_length hgeolen
        have hall : ∀ g ∈ geoJsonCodes, geoCodeMatched dataCodes.toFinset g = true := by
          intro g hgmem
          have hgin : g ∈ geoJsonCodes.filter (geoCodeMatched dataCodes.toFinset) :=
            hfil.symm ▸ hgmem
          exact (List.mem_filter.mp hgin).2
        have hdlen : dataCodes.length ≤ geoJsonCodes.length := by
          rw [← hgeolen, hEq]
          exact le_max_right _ _
        obtain ⟨hsub, hcard⟩ := matchedImage_props geoJsonCodes dataCodes hgnd hall
        refine ⟨?_, ?_⟩
        · intro g hgmem
          obtain ⟨d, hgd, _, hdS⟩ := geoCodeMatched_iff.mp (hall g hgmem)
          exact ⟨d, List.mem_toFinset.mp hdS, hgd⟩
        · have heqset : geoJsonCodes.toFinset.image (fun g => (geoCodeToDataCode g).getD "")
              = dataCodes.toFinset := by
            apply Finset.eq_of_subset_of_card_le hsub
            rw [hcard, List.toFinset_card_of_nodup hdnd]
            exact hdlen
          intro d hdmem
          have hdim : d ∈ geoJsonCodes.toFinset.image
              (fun g => (geoCodeToDataCode g).getD "") := by
            rw [heqset]
            exact List.mem_toFinset.mpr hdmem
          obtain ⟨g, hgmem, hfg⟩ := Finset.mem_image.mp hdim
          have hG : g ∈ geoJsonCodes := List.mem_toFinset.mp hgmem
          obtain ⟨d2, hgd2, _, _⟩ := geoCodeMatched_iff.mp (hall g hG)
          have hfg2 : (geoCodeToDataCode g).getD "" = d := hfg
          rw [hgd2] at hfg2
          simp only [Option.getD_some] at hfg2
          exact ⟨g, hG, by rw [hgd2, hfg2]⟩
      · rintro ⟨hgd, hdg⟩
        have hall : ∀ g ∈ geoJsonCodes, geoCodeMatched dataCodes.toFinset g = true := by
          intro g hgmem
          obtain ⟨d, hdmem, hgd2⟩ := hgd g hgmem
          exact geoCodeMatched_iff.mpr
            ⟨d, hgd2, geoCodeToDataCode_ne_empty hgd2, List.mem_toFinset.mpr hdmem⟩
        have hfil : geoJsonCodes.filter (geoCodeMatched dataCodes.toFinset)
            = geoJsonCodes := List.filter_eq_self.mpr hall
        obtain ⟨hsub, hcard⟩ := matchedImage_props geoJsonCodes dataCodes hgnd hall
        have hsup : dataCodes.toFinset ⊆
            geoJsonCodes.toFinset.image (fun g => (geoCodeToDataCode g).getD "") := by
          intro d hd
          obtain ⟨g, hgmem, hgd2⟩ := hdg d (List.mem_toFinset.mp hd)
          refine Finset.mem_image.mpr ⟨g, List.mem_toFinset.mpr hgmem, ?_⟩
          rw [hgd2]
          rfl
        have heqset := Finset.Subset.antisymm hsub hsup
        have hlen : dataCodes.length = geoJsonCodes.length := by
          rw [← List.toFinset_card_of_nodup hdnd, ← heqset, hcard]
        rw [hfil, hlen, max_self]

/-- Witness for the amended C4: one-element inputs for both validators —
identical singleton string sets for `validateMunicipalityAlignment`, and
the corresponding pair (compact code 7, data code "11007") for
`validateCodeAlignment`. -/
theorem c4_alignment_ratio_amended_witness :
    (0 < max ({"11001"} : Finset String).card ({"11001"} : Finset String).card
      ∧ ((validateMunicipalityAlignment {"11001"} {"11001"}).alignmentRatio
          = some (((({"11001"} : Finset String) ∩ {"11001"}).card : ℚ) /
            ((max ({"11001"} : Finset String).card ({"11001"} : Finset String).card : ℕ) : ℚ))
        ∧ 0 ≤ ((({"11001"} : Finset String) ∩ {"11001"}).card : ℚ) /
            ((max ({"11001"} : Finset String).card ({"11001"} : Finset String).card : ℕ) : ℚ)
        ∧ ((({"11001"} : Finset String) ∩ {"11001"}).card : ℚ) /
            ((max ({"11001"} : Finset String).card ({"11001"} : Finset String).card : ℕ) : ℚ) ≤ 1
        ∧ (((({"11001"} : Finset String) ∩ {"11001"}).card : ℚ) /
            ((max ({"11001"} : Finset String).card ({"11001"} : Finset String).card : ℕ) : ℚ) = 1
            ↔ ({"11001"} : Finset String) = {"11001"})))
    ∧ (([7] : List ℕ).Nodup ∧ (["11007"] : List String).Nodup
        ∧ 0 < max ([7] : List ℕ).length (["11007"] : List String).length
      ∧ ((validateCodeAlignment [7] ["11007"]).alignmentRatio
          = some (((([7] : List ℕ).filter
              (geoCodeMatched (["11007"] : List String).toFinset)).length : ℚ) /
            ((max ([7] : List ℕ).length (["11007"] : List String).length : ℕ) : ℚ))
        ∧ 0 ≤ ((([7] : List ℕ).filter
              (geoCodeMatched (["11007"] : List String).toFinset)).length : ℚ) /
            ((max ([7] : List ℕ).length (["11007"] : List String).length : ℕ) : ℚ)
        ∧ ((([7] : List ℕ).filter
              (geoCodeMatched (["11007"] : List String).toFinset)).length : ℚ) /
            ((max ([7] : List ℕ).length (["11007"] : List String).length : ℕ) : ℚ) ≤ 1
        ∧ (((([7] : List ℕ).filter
              (geoCodeMatched (["11007"] : List String).toFinset)).length : ℚ) /
            ((max ([7] : List ℕ).length (["11007"] : List String).length : ℕ) : ℚ) = 1
            ↔ ((∀ g ∈ ([7] : List ℕ), ∃ d ∈ (["11007"] : List String),
                  geoCodeToDataCode g = some d)
                ∧ (∀ d ∈ (["11007"] : List String), ∃ g ∈ ([7] : List ℕ),
                  geoCodeToDataCode g = some d))))) :=
  ⟨⟨by decide, c4_alignment_ratio_amended.1 {"11001"} {"11001"} (by decide)⟩,
   ⟨by decide, by decide, by decide,
    c4_alignment_ratio_amended.2 [7] ["11007"] (by decide) (by decide) (by decide)⟩⟩

/-- C5 counterexample: on the initial store, take the snapshot returned by
`getLayers`, then `toggleLayer "indice_riesgo"`.  The contents observed
through the previously returned snapshot change — the snapshot's elements
are live references into the store's internal state, contradicting the
claim that a mutation leaves a previous snapshot's contents unchanged. -/
theorem c5_snapshot_counterexample :
    readSnapshot (toggleLayer initializeLayers ("indice_riesgo")).1
        (getLayers initializeLayers)
      ≠ readSnapshot initializeLayers (getLayers initializeLayers) := by
  decide

/-- C5 (amended): `getLayers` returns a fresh array each call, but its
elements are live references to the store's `LayerState` objects: a
`toggleVisibility` mutation leaves the reference list of an earlier
snapshot identical to a fresh one (the store never re-allocates the
objects), so the contents observed through the earlier snapshot are exactly
the post-mutation contents — shown concretely on the initial store. -/
theorem c5_snapshot_amended :
    (∀ (m : AtlasLayerManager) (id : String),
        getLayers (toggleLayer m id).1 = getLayers m)
      ∧ readSnapshot (toggleLayer initializeLayers ("indice_riesgo")).1
            (getLayers initializeLayers)
          = readSnapshot (toggleLayer initializeLayers ("indice_riesgo")).1
            (getLayers (toggleLayer initializeLayers ("indice_riesgo")).1) := by
  constructor
  · intro m id
    cases hm : m.heap id <;> simp [toggleLayer, getLayers, hm]
  · decide

/-- C6 counterexample: for the configured layer id `"indice_riesgo"`, which
is already visible in the store's initial state, `setVisibility(id, true)`
emits no broadcast at all — a subscribed listener is invoked zero times,
not exactly once. -/
theorem c6_notify_counterexample :
    (initializeLayers.heap ("indice_riesgo")).map (fun st => st.isVisible) = some true ∧
      (setLayerVisibility initializeLayers ("indice_riesgo") true).2.2 = [] := by
  decide

/-- C6 (amended): for every store state and layer id whose `LayerState` is
currently not visible, `setVisibility(id, true)` emits exactly one
broadcast, and the snapshot it carries shows layer `id` with
`isVisible = true`.  (For a layer already visible — `indice_riesgo` in the
initial state — no broadcast is emitted.) -/
theorem c6_notify_amended (m : AtlasLayerManager) (id : String)
    (hmem : id ∈ m.order)
    (hvis : (m.heap id).map (fun st => st.isVisible) = some false)
    (hid : (m.heap id).map (fun st => st.id) = some id) :
    ((setLayerVisibility m id true).2.2).map
        (fun snap => snap.any (fun ls => ls.id == id && ls.isVisible)) = [true] := by
  cases hm : m.heap id with
  | none => rw [hm] at hvis; simp at hvis
  | some layer =>
      rw [hm] at hvis hid
      simp only [Option.map_some'] at hvis hid
      have hvis' : layer.isVisible = false := by injection hvis
      have hid' : layer.id = id := by injection hid
      simp only [setLayerVisibility, hm, hvis', ne_eq, Bool.false_eq_true,
        not_false_eq_true, if_true, if_pos]
      simp only [List.map_cons, List.map_nil, List.cons.injEq, and_true]
      rw [List.any_eq_true]
      refine ⟨{ layer with isVisible := true }, ?_, ?_⟩
      · refine List.mem_filterMap.mpr ⟨id, hmem, ?_⟩
        simp
      · simp [hid']

/-- Witness for the amended C6 at the initial store and the configured
layer id `"desapariciones"` (initially hidden). -/
theorem c6_notify_amended_witness :
    ("desapariciones" ∈ initializeLayers.order
      ∧ (initializeLayers.heap ("desapariciones")).map (fun st => st.isVisible) = some false
      ∧ (initializeLayers.heap ("desapariciones")).map (fun st => st.id)
          = some ("desapariciones"))
    ∧ ((setLayerVisibility initializeLayers ("desapariciones") true).2.2).map
        (fun snap => snap.any (fun ls => ls.id == "desapariciones" && ls.isVisible)) = [true] :=
  ⟨⟨by decide, by decide, by decide⟩,
    c6_notify_amended initializeLayers ("desapariciones") (by decide) (by decide) (by decide)⟩

/-- C3: the join never drops and never duplicates a geometry feature — for
every geometry collection and every tabular dataset (any sizes, any number
of matching records), the enriched feature list returned by
`joinDataWithGeometries` has exactly the length of the input geometry's
feature list. -/
theorem c3_join_preserves_feature_count {α : Type} (geoJson : MunicipalitiesGeoJSON)
    (dataFile : DataFile α) (dataSourceName : String) :
    (joinDataWithGeometries geoJson dataFile dataSourceName).features.length
      = geoJson.features.length := by
  simp [joinDataWithGeometries]

/-- C8: for every geometry collection, the report's `isValid` is `true` iff
the issue list contains zero error-severity issues; and concretely on
Scenario D (a feature named "Leon" with the correct code), the validator
emits a `wrong_name` warning while `isValid` stays `true` — warnings alone
never block validity. -/
theorem c8_isValid_iff_no_errors :
    (∀ g : MunicipalitiesGeoJSON,
        (validateGeoJSONIntegrity g).isValid = true
          ↔ ((validateGeoJSONIntegrity g).issues.filter
              (fun i => i.severity == Severity.error)).length = 0)
      ∧ (validateGeoJSONIntegrity leonScenario).isValid = true
      ∧ (validateGeoJSONIntegrity leonScenario).issues.any
          (fun i => i.issueType == ValidationIssueType.wrong_name
            && i.severity == Severity.warning) = true := by
  refine ⟨fun g => ?_, by decide, by decide⟩
  simp [validateGeoJSONIntegrity]

/-- C1 counterexample: for the Scenario C input (extracted values
`[10,20,30,40,50]`, five colors, quintile method) the break sequence
computed by the classification code is not `[10,10,20,30,40,50]`. -/
theorem c1_quintile_breaks_counterexample :
    choroplethBreaks (extractedChoroplethValues scenarioCGeo payloadValue)
        colors5.length ClassificationMethod.quintiles
      ≠ [10, 10, 20, 30, 40, 50] := by
  decide

/-- C1 (amended): the computed break sequence is `[10,20,30,40,50,50]`
(indices `0,1,2,3,4,4` of the sorted values), and the threshold scan of the
color lookup assigns the value 25 the 2nd color bin (`colors5[1]`), not the
3rd. -/
theorem c1_quintile_breaks_amended :
    choroplethBreaks (extractedChoroplethValues scenarioCGeo payloadValue)
        colors5.length ClassificationMethod.quintiles = [10, 20, 30, 40, 50, 50]
      ∧ chooseColor
          (choroplethBreaks (extractedChoroplethValues scenarioCGeo payloadValue)
            colors5.length ClassificationMethod.quintiles) colors5 25
        = colors5.getD 1 "" :=
  ⟨by decide, by decide⟩

/-- C2, evaluated at the failing input: for extracted values `[0,-1,0,-2,0]`
(sorted `[-2,-1,0,0,0]`) the quintile computation yields breaks
`[-2,-1,-2,-2,-2,0]`, which is not non-decreasing (`-1 > -2` at the second
adjacent pair): the JS `||` fallback, meant for out-of-range indices, also
fires on the in-range value `0` and replaces it by the minimum. -/
theorem c2_breaks_not_monotone_at_failing_input :
    choroplethBreaks (extractedChoroplethValues zeroFallbackGeo payloadValue)
        colors5.length ClassificationMethod.quintiles = [-2, -1, -2, -2, -2, 0]
      ∧ isNonDecreasing
          (choroplethBreaks (extractedChoroplethValues zeroFallbackGeo payloadValue)
            colors5.length ClassificationMethod.quintiles) = false :=
  ⟨by decide, by decide⟩

/-- `jsMapOfList` over a list mapped to key/value pairs: reading key `k`
yields the value of the last element whose key is `k`. -/
theorem jsMapOfList_map_get {α β γ : Type} [DecidableEq β] (l : List α)
    (key : α → β) (val : α → γ) (k : β) :
    jsMapOfList (l.map (fun a => (key a, val a))) k
      = ((l.filter (fun a => key a = k)).getLast?).map val := by
  rw [jsMapOfList_get, List.filter_map, ← List.getLast?_map, List.map_map]
  have h1 : ((fun p : β × γ => decide (p.1 = k)) ∘ fun a => (key a, val a))
      = fun a => decide (key a = k) := rfl
  have h2 : (Prod.snd ∘ fun a : α => (key a, val a)) = val := rfl
  rw [h1, h2]
  exact List.getLast?_map _ _

/-- C10 counterexample: with two features sharing code "11001" — the first
with `hasData` and extracted value `0` (the default `missingDataValue`
sentinel), the second with value `5` — the color lookup returns a
data-driven bin color for that code, not `noDataColor`, although the first
feature has `hasData = true` and its extracted value equals the sentinel. -/
theorem c10_sentinel_counterexample :
    ((duplicateCodeGeo.features.get? 0).map (fun f => f.properties.hasData)) = some true
      ∧ ((duplicateCodeGeo.features.get? 0).map (fun f => f.properties.cvegeo))
          = some ("11001")
      ∧ (((duplicateCodeGeo.features.get? 0).bind (fun f => f.properties.data)).map
          payloadValue) = some (({} : ChoroplethOptions).missingDataValue)
      ∧ createChoroplethMapping duplicateCodeGeo payloadValue colors5 {} ("11001")
          ≠ ({} : ChoroplethOptions).noDataColor :=
  ⟨by decide, by decide, by decide, by decide⟩

/-- C10 (amended): for every enriched collection and feature `f` with
`hasData`, a present data record, and extracted value equal to
`missingDataValue`, if no later feature carries the same code (`f` is the
last occurrence of its code — true in particular whenever codes are
distinct), the color lookup returns `noDataColor` for `f`'s code: a real
data value equal to the sentinel is indistinguishable from absent data. -/
theorem c10_sentinel_amended {α : Type} (enhancedGeoJson : EnhancedGeoJSON α)
    (valueExtractor : MunicipalDataRecord α → ℚ) (colorScale : List String)
    (options : ChoroplethOptions) (f : EnhancedFeature α) (r : MunicipalDataRecord α)
    (hhas : f.properties.hasData = true)
    (hdata : f.properties.data = some r)
    (hval : valueExtractor r = options.missingDataValue)
    (hlast : (enhancedGeoJson.features.filter
        (fun g => g.properties.cvegeo = f.properties.cvegeo)).getLast? = some f) :
    createChoroplethMapping enhancedGeoJson valueExtractor colorScale options
        f.properties.cvegeo = options.noDataColor := by
  have hvm : choroplethValueMap enhancedGeoJson valueExtractor options.missingDataValue
      f.properties.cvegeo
      = ((enhancedGeoJson.features.filter
            (fun g => g.properties.cvegeo = f.properties.cvegeo)).getLast?).map
          (fun g => match g.properties.hasData, g.properties.data with
            | true, some d => valueExtractor d
            | _, _ => options.missingDataValue) :=
    jsMapOfList_map_get enhancedGeoJson.features _ _ _
  rw [hlast] at hvm
  simp only [Option.map_some'] at hvm
  rw [hhas, hdata] at hvm
  simp only [hval] at hvm
  rw [createChoroplethMapping]
  cases hB : (extractedChoroplethValues enhancedGeoJson valueExtractor).isEmpty with
  | true => simp [hB]
  | false => simp [hB, hvm]

/-- Witness for the amended C10: a single feature with code "11001",
`hasData = true` and extracted value `0` (the default sentinel); the lookup
returns the default `noDataColor`. -/
theorem c10_sentinel_amended_witness :
    ((mkEnhancedFeature ("11001") (some 0)).properties.hasData = true
      ∧ (mkEnhancedFeature ("11001") (some 0)).properties.data
          = some ({ municipio := "11001", payload := 0 } : MunicipalDataRecord ℚ)
      ∧ payloadValue ({ municipio := "11001", payload := 0 } : MunicipalDataRecord ℚ)
          = ({} : ChoroplethOptions).missingDataValue
      ∧ (soloSentinelGeo.features.filter (fun g =>
            g.properties.cvegeo = (mkEnhancedFeature ("11001") (some 0)).properties.cvegeo)).getLast?
          = some (mkEnhancedFeature ("11001") (some 0)))
    ∧ createChoroplethMapping soloSentinelGeo payloadValue colors5 {}
        (mkEnhancedFeature ("11001") (some 0)).properties.cvegeo
      = ({} : ChoroplethOptions).noDataColor :=
  ⟨⟨by decide, by decide, by decide, by decide⟩,
    c10_sentinel_amended soloSentinelGeo payloadValue colors5 {}
      (mkEnhancedFeature ("11001") (some 0))
      ({ municipio := "11001", payload := 0 } : MunicipalDataRecord ℚ)
      (by decide) (by decide) (by decide) (by decide)⟩
